import Mathlib

/-!
Shallow embedding of the tenant-isolation governance layer of
`stellar-monitor-tenant-isolation` (Rust), covering:

* `src/utils/tenant_context.rs` — `TenantContext`, the task-local context
  store (`with_tenant_context`, `current_tenant_context`), and the
  permission helpers `can_write` / `can_manage`;
* `src/models/tenant.rs` — `TenantRole` and its capability predicates,
  the `Tenant` record;
* `src/models/resource_quota.rs` — `TenantQuotas`, `CurrentUsage`,
  `AvailableResources`, `ResourceQuotaStatus`;
* `src/repositories/tenant.rs` — `get_quota_status` (the quota
  accountant's derivation of `available` from quotas and usage);
* `src/api/middleware.rs` — `authenticate_jwt`, `authenticate_api_key`
  (credential resolution) and `rate_limit_middleware` (fixed-window
  rate limiter with burst allowance).

Rust `i32` quota/usage fields are modelled as `Int` (the counts come from
SQL `COUNT(*)`/`SUM` aggregates; no arithmetic in the modelled paths is
overflow-sensitive at the scales the claims quantify over, and debug-mode
Rust aborts rather than wrapping).  `Uuid` values are modelled as `Nat`.
Database and cryptographic effects (queries, hash verification, token
verification, clocks) are passed in as explicit oracle arguments, so each
Rust function becomes a pure Lean function of its environment.
-/

namespace StellarMonitor

/-! ## Data model: roles, users, contexts (src/models/tenant.rs,
    src/utils/tenant_context.rs) -/

/-- Rust `TenantRole` from src/models/tenant.rs: Owner, Admin, Member, Viewer. -/
inductive TenantRole
  | owner
  | admin
  | member
  | viewer
deriving DecidableEq, Repr

/-- Rust `TenantRole::can_manage_tenant`: `matches!(self, Owner | Admin)`. -/
def TenantRole.can_manage_tenant : TenantRole → Bool
  | .owner => true
  | .admin => true
  | _ => false

/-- Rust `TenantRole::can_write`: `matches!(self, Owner | Admin | Member)`. -/
def TenantRole.can_write : TenantRole → Bool
  | .owner => true
  | .admin => true
  | .member => true
  | .viewer => false

/-- Rust `TenantRole::can_read`: all roles can read. -/
def TenantRole.can_read (_ : TenantRole) : Bool := true

/-- Rust `AuthenticatedUser` from src/utils/tenant_context.rs
    (`id: Uuid`, `email: String`, `role: TenantRole`). -/
structure AuthenticatedUser where
  id : Nat
  email : String
  role : TenantRole
deriving DecidableEq, Repr

/-- Rust `TenantContext` from src/utils/tenant_context.rs: `tenant_id: Uuid`,
    `user: Option<AuthenticatedUser>`, `api_key_id: Option<Uuid>`. -/
structure TenantContext where
  tenant_id : Nat
  user : Option AuthenticatedUser
  api_key_id : Option Nat
deriving DecidableEq, Repr

/-- Rust `TenantContext::new`: both principal fields absent. -/
def TenantContext.new (tenant_id : Nat) : TenantContext :=
  { tenant_id := tenant_id, user := none, api_key_id := none }

/-- Rust `TenantContext::with_user`: user principal, no API key. -/
def TenantContext.with_user (tenant_id : Nat) (user : AuthenticatedUser) :
    TenantContext :=
  { tenant_id := tenant_id, user := some user, api_key_id := none }

/-- Rust `TenantContext::with_api_key`: API-key principal, no user. -/
def TenantContext.with_api_key (tenant_id : Nat) (api_key_id : Nat) :
    TenantContext :=
  { tenant_id := tenant_id, user := none, api_key_id := some api_key_id }

/-- Rust `TenantContext::can_write`:
    `self.user.as_ref().map(|u| u.role.can_write()).unwrap_or(true)`
    — API keys can write by default. -/
def TenantContext.can_write (ctx : TenantContext) : Bool :=
  (ctx.user.map fun u => u.role.can_write).getD true

/-- Rust `TenantContext::can_manage`:
    `self.user.as_ref().map(|u| u.role.can_manage_tenant()).unwrap_or(false)`. -/
def TenantContext.can_manage (ctx : TenantContext) : Bool :=
  (ctx.user.map fun u => u.role.can_manage_tenant).getD false

/-! ## Tenant context store (src/utils/tenant_context.rs)

The task-local slot `TENANT_CONTEXT` is modelled as an explicit
`Option TenantContext` argument: `some ctx` when the execution is inside a
`with_tenant_context` scope bound to `ctx`, `none` otherwise.  A Rust panic
(`Result::expect`) is modelled as `Except.error` carrying the panic
message. -/

/-- Rust `current_tenant_context`:
    `TENANT_CONTEXT.try_with(|ctx| ctx.clone()).expect("No tenant context set")`.
    Outside any scope `try_with` yields `Err(AccessError)` and `expect`
    panics with the message, aborting the operation. -/
def current_tenant_context (binding : Option TenantContext) :
    Except String TenantContext :=
  match binding with
  | some ctx => .ok ctx
  | none => .error "No tenant context set"

/-- Rust `current_tenant_context_option` (spec §4.2 `current_or_none()`).
    Modelled from the spec: the function is called from
    `rate_limit_middleware` but its definition is not present under src/;
    per the spec it returns the active binding or an absence marker,
    never failing. -/
def current_tenant_context_option (binding : Option TenantContext) :
    Option TenantContext :=
  binding

/-! ## Quota data model (src/models/resource_quota.rs, src/models/tenant.rs) -/

/-- Rust `Tenant` from src/models/tenant.rs (quota columns; metadata omitted). -/
structure Tenant where
  id : Nat
  name : String
  slug : String
  is_active : Bool
  max_monitors : Int
  max_networks : Int
  max_triggers_per_monitor : Int
  max_rpc_requests_per_minute : Int
  max_storage_mb : Int
deriving DecidableEq, Repr

/-- Rust `TenantQuotas` from src/models/resource_quota.rs. -/
structure TenantQuotas where
  max_monitors : Int
  max_networks : Int
  max_triggers_per_monitor : Int
  max_rpc_requests_per_minute : Int
  max_storage_mb : Int
deriving DecidableEq, Repr

/-- Rust `CurrentUsage` from src/models/resource_quota.rs. -/
structure CurrentUsage where
  monitors_count : Int
  networks_count : Int
  triggers_count : Int
  rpc_requests_last_minute : Int
  storage_mb_used : Int
deriving DecidableEq, Repr

/-- Rust `AvailableResources` from src/models/resource_quota.rs. -/
structure AvailableResources where
  monitors : Int
  networks : Int
  triggers : Int
  rpc_requests_per_minute : Int
  storage_mb : Int
deriving DecidableEq, Repr

/-- Rust `ResourceQuotaStatus` from src/models/resource_quota.rs. -/
structure ResourceQuotaStatus where
  tenant_id : Nat
  quotas : TenantQuotas
  usage : CurrentUsage
  available : AvailableResources
deriving DecidableEq, Repr

/-- Rust `TenantRepositoryError` from src/repositories/error.rs (the variants
    reached from the modelled paths). -/
inductive TenantRepositoryError
  | database
  | tenantNotFound (id : Nat)
  | invalidConfiguration (msg : String)
deriving DecidableEq, Repr

/-! ## Quota accountant (src/repositories/tenant.rs, `get_quota_status`)

The five aggregation queries (monitor/network/trigger counts, RPC usage in
the trailing minute, latest daily storage row) are passed in as the
already-fetched integers; the `self.get(tenant_id)` tenant lookup is
passed in as its `Result`. -/

/-- Rust `get_quota_status` from src/repositories/tenant.rs: fetch the tenant
    (propagating `TenantNotFound`/database errors), package quotas and
    usage, and derive `available` with every field clamped at zero via
    `.max(0)`; triggers use
    `max_triggers_per_monitor * monitors_count - triggers_count`. -/
def get_quota_status (tenant_id : Nat)
    (tenant_lookup : Except TenantRepositoryError Tenant)
    (monitor_count network_count trigger_count rpc_requests storage_mb : Int) :
    Except TenantRepositoryError ResourceQuotaStatus :=
  match tenant_lookup with
  | .error e => .error e
  | .ok tenant =>
    let quotas : TenantQuotas :=
      { max_monitors := tenant.max_monitors
        max_networks := tenant.max_networks
        max_triggers_per_monitor := tenant.max_triggers_per_monitor
        max_rpc_requests_per_minute := tenant.max_rpc_requests_per_minute
        max_storage_mb := tenant.max_storage_mb }
    let usage : CurrentUsage :=
      { monitors_count := monitor_count
        networks_count := network_count
        triggers_count := trigger_count
        rpc_requests_last_minute := rpc_requests
        storage_mb_used := storage_mb }
    let available : AvailableResources :=
      { monitors := max (quotas.max_monitors - usage.monitors_count) 0
        networks := max (quotas.max_networks - usage.networks_count) 0
        triggers := max (quotas.max_triggers_per_monitor * usage.monitors_count
            - usage.triggers_count) 0
        rpc_requests_per_minute := max (quotas.max_rpc_requests_per_minute
            - usage.rpc_requests_last_minute) 0
        storage_mb := max (quotas.max_storage_mb - usage.storage_mb_used) 0 }
    .ok { tenant_id := tenant_id, quotas := quotas, usage := usage,
          available := available }

/-- The spec's formula for available triggers (spec §3):
    `available.triggers = max(0, quotas.max_triggers_per_monitor *
    usage.monitors_count - usage.triggers_count)`.  Stated from the spec's
    words, to be compared with the value `get_quota_status` computes. -/
def spec_available_triggers (quotas : TenantQuotas) (usage : CurrentUsage) :
    Int :=
  max 0 (quotas.max_triggers_per_monitor * usage.monitors_count
    - usage.triggers_count)

/-! ## Credential resolution (src/api/middleware.rs)

HTTP status codes used by the middleware. -/

inductive StatusCode
  | unauthorized
  | forbidden
  | notFound
  | internalServerError
  | tooManyRequests
deriving DecidableEq, Repr

/-- JWT `Claims` consumed by `authenticate_jwt` (`sub: Uuid`, `email`). -/
structure Claims where
  sub : Nat
  email : String
deriving DecidableEq, Repr

/-- Rust `authenticate_jwt` from src/api/middleware.rs.  The effects are passed
    in as their results: `verify_jwt` (token verification), `get_by_slug`
    (tenant lookup by slug), `get_user_tenants` (the membership rows
    `(tenant, role)` for `claims.sub`).  Control flow mirrors the source:
    bad token ⇒ `UNAUTHORIZED`; tenant lookup failure ⇒ `NOT_FOUND`;
    membership query failure ⇒ `INTERNAL_SERVER_ERROR`; no membership row
    whose tenant id equals the resolved tenant's id ⇒ `FORBIDDEN`;
    otherwise `TenantContext::with_user` with the membership's role.
    (The source also attaches `tenant.resource_quotas()` to the context;
    the in-tree `TenantContext` struct has no quotas field, so the
    snapshot is not represented.) -/
def authenticate_jwt
    (verify_jwt : Except Unit Claims)
    (get_by_slug : Except Unit Tenant)
    (get_user_tenants : Except Unit (List (Tenant × TenantRole))) :
    Except StatusCode TenantContext :=
  match verify_jwt with
  | .error _ => .error .unauthorized
  | .ok claims =>
    match get_by_slug with
    | .error _ => .error .notFound
    | .ok tenant =>
      match get_user_tenants with
      | .error _ => .error .internalServerError
      | .ok memberships =>
        match memberships.find? (fun p => p.1.id == tenant.id) with
        | none => .error .forbidden
        | some membership =>
          .ok (TenantContext.with_user tenant.id
            { id := claims.sub, email := claims.email, role := membership.2 })

/-- One row of the `api_keys` query in `authenticate_api_key`
    (`ak.id, ak.tenant_id, ak.key_hash, ak.expires_at`; the SQL already
    filters `ak.is_active = true` and the tenant slug). -/
structure ApiKeyRecord where
  id : Nat
  tenant_id : Nat
  key_hash : String
  expires_at : Option Int
deriving DecidableEq, Repr

/-- The expiry test in `authenticate_api_key`:
    `if let Some(expires_at) = valid_key.expires_at { expires_at < now }`. -/
def is_expired (expires_at : Option Int) (now : Int) : Bool :=
  match expires_at with
  | some t => decide (t < now)
  | none => false

/-- Rust `authenticate_api_key` from src/api/middleware.rs.  Oracle arguments:
    `stripped` is the outcome of removing the configured API-key literal
    from the header (`none` when the literal was absent);
    `key_records` is the result of the active-keys query for the slug;
    `verify_password secret hash` is the constant-time hash check
    (`unwrap_or(false)` folded in); `now` is `chrono::Utc::now()`;
    `update_last_used` is the result of the `UPDATE api_keys SET
    last_used_at = NOW()` statement; `fetch_tenant` is the result of the
    tenant row fetch used for the quota snapshot.  Control flow mirrors
    the source: no literal ⇒ `UNAUTHORIZED`; query failure ⇒
    `INTERNAL_SERVER_ERROR`; first record whose hash verifies wins, none ⇒
    `UNAUTHORIZED`; expired ⇒ `UNAUTHORIZED`; failed last-used update ⇒
    `INTERNAL_SERVER_ERROR`; failed tenant fetch ⇒ `UNAUTHORIZED`;
    otherwise `TenantContext::with_api_key`. -/
def authenticate_api_key
    (stripped : Option String)
    (key_records : Except Unit (List ApiKeyRecord))
    (verify_password : String → String → Bool)
    (now : Int)
    (update_last_used : Except Unit Unit)
    (fetch_tenant : Except Unit Tenant) :
    Except StatusCode TenantContext :=
  match stripped with
  | none => .error .unauthorized
  | some key_without =>
    match key_records with
    | .error _ => .error .internalServerError
    | .ok records =>
      match records.find? (fun r => verify_password key_without r.key_hash) with
      | none => .error .unauthorized
      | some valid_key =>
        if is_expired valid_key.expires_at now then
          .error .unauthorized
        else
          match update_last_used with
          | .error _ => .error .internalServerError
          | .ok _ =>
            match fetch_tenant with
            | .error _ => .error .unauthorized
            | .ok _tenant =>
              .ok (TenantContext.with_api_key valid_key.tenant_id valid_key.id)

/-! ## Rate limiter (src/api/middleware.rs, `rate_limit_middleware`) -/

/-- Rust `ApiRateLimits` (rate-limit pairs read from
    `context.quotas.api_rate_limits`). -/
structure ApiRateLimits where
  requests_per_minute_user : Nat
  burst_size_user : Nat
  requests_per_minute_api_key : Nat
  burst_size_api_key : Nat
deriving DecidableEq, Repr

/-- Rust `RateLimitEntry` from src/api/middleware.rs: `count: u32`,
    `window_start: Instant` (modelled in whole seconds). -/
structure RateLimitEntry where
  count : Nat
  window_start : Nat
deriving DecidableEq, Repr

/-- Rust `HashMap::get` on the shared `RATE_LIMITS` map, keyed by tenant id. -/
def lookup_rate_limits : List (Nat × RateLimitEntry) → Nat →
    Option RateLimitEntry
  | [], _ => none
  | (k, v) :: rest, key => if k = key then some v else lookup_rate_limits rest key

/-- Writing an entry back into the shared map (`HashMap::insert`
    or mutation through `get_mut`). -/
def insert_rate_limits : List (Nat × RateLimitEntry) → Nat → RateLimitEntry →
    List (Nat × RateLimitEntry)
  | [], key, v => [(key, v)]
  | (k, w) :: rest, key, v =>
    if k = key then (key, v) :: rest else (k, w) :: insert_rate_limits rest key v

/-- Rust `rate_limit_middleware` from src/api/middleware.rs.  `ctx` is the
    result of `current_tenant_context_option()` paired with the
    `api_rate_limits` of the context's quota snapshot (the in-tree
    `TenantContext` struct has no quotas field); `now` is `Instant::now()`
    in seconds; `rate_limits` is the shared tenant→entry map.  Returns the
    updated map on admission, `TOO_MANY_REQUESTS` on rejection.  Mirrors
    the source: absent context ⇒ pass through untouched; the (limit,
    burst) pair is chosen by principal kind; no entry ⇒ insert
    `{count: 1, window_start: now}` and admit; window older than 60s ⇒
    reset to `{count: 1, window_start: now}` and admit; `count < limit` ⇒
    increment and admit; else admit without incrementing iff
    `count < burst`. -/
def rate_limit_middleware
    (ctx : Option (TenantContext × ApiRateLimits))
    (now : Nat)
    (rate_limits : List (Nat × RateLimitEntry)) :
    Except StatusCode (List (Nat × RateLimitEntry)) :=
  match ctx with
  | none => .ok rate_limits
  | some (context, limits) =>
    let pair :=
      if context.user.isSome then
        (limits.requests_per_minute_user, limits.burst_size_user)
      else
        (limits.requests_per_minute_api_key, limits.burst_size_api_key)
    let requests_per_minute := pair.1
    let burst_size := pair.2
    let tenant_id := context.tenant_id
    match lookup_rate_limits rate_limits tenant_id with
    | some entry =>
      if now - entry.window_start > 60 then
        .ok (insert_rate_limits rate_limits tenant_id
          { count := 1, window_start := now })
      else if entry.count < requests_per_minute then
        .ok (insert_rate_limits rate_limits tenant_id
          { count := entry.count + 1, window_start := entry.window_start })
      else if entry.count < burst_size then
        .ok rate_limits
      else
        .error .tooManyRequests
    | none =>
      .ok (insert_rate_limits rate_limits tenant_id
        { count := 1, window_start := now })

/-! ## Shared concrete values used by witnesses and traces -/

/-- A concrete tenant row used in witnesses. -/
def tenant_a : Tenant :=
  { id := 1, name := "Acme", slug := "acme", is_active := true,
    max_monitors := 10, max_networks := 5, max_triggers_per_monitor := 3,
    max_rpc_requests_per_minute := 1000, max_storage_mb := 1000 }

/-- A rate-limiter context whose effective pair is limit 2, burst 3 for
    both principal kinds (the scenario of spec §8). -/
def limit2_burst3_ctx : Option (TenantContext × ApiRateLimits) :=
  some (TenantContext.with_api_key 5 9,
    { requests_per_minute_user := 2, burst_size_user := 3,
      requests_per_minute_api_key := 2, burst_size_api_key := 3 })

/-- A context holds exactly one principal: a user and no API key, or an
    API key and no user — never both, never neither. -/
def has_exactly_one_principal (ctx : TenantContext) : Prop :=
  (ctx.user ≠ none ∧ ctx.api_key_id = none) ∨
  (ctx.user = none ∧ ctx.api_key_id ≠ none)

/-! ## Claim theorems -/

/-- Claim C1: calling `current_tenant_context` when no tenant-context
    scope is active never returns a default or empty `TenantContext`; the
    call aborts the operation with the diagnosable panic message
    "No tenant context set". -/
theorem current_tenant_context_outside_scope_aborts :
    current_tenant_context none = .error "No tenant context set" := rfl

/-- Claim C2: for a quota status computed by `get_quota_status` with
    non-negative per-monitor trigger quota and non-negative usage counts,
    the available-triggers field equals
    `max 0 (quotas.max_triggers_per_monitor * usage.monitors_count -
    usage.triggers_count)` — a per-monitor quota scaled by the monitor
    count, exactly the spec's formula. -/
theorem get_quota_status_triggers_formula (tenant_id : Nat) (tenant : Tenant)
    (m n t r s : Int) (status : ResourceQuotaStatus)
    (hq : 0 ≤ tenant.max_triggers_per_monitor)
    (hm : 0 ≤ m) (ht : 0 ≤ t)
    (hok : get_quota_status tenant_id (.ok tenant) m n t r s = .ok status) :
    status.available.triggers
      = spec_available_triggers status.quotas status.usage := by
  simp only [get_quota_status] at hok
  cases hok
  simp only [spec_available_triggers]
  exact max_comm _ _

/-- Witness for C2 at a concrete input: quota 3 triggers per monitor,
    2 monitors, 1 trigger used, so 5 triggers are available. -/
theorem get_quota_status_triggers_formula_witness :
    (ResourceQuotaStatus.mk 1
      ⟨10, 5, 3, 1000, 1000⟩ ⟨2, 0, 1, 0, 0⟩
      ⟨8, 5, 5, 1000, 1000⟩).available.triggers
    = spec_available_triggers ⟨10, 5, 3, 1000, 1000⟩ ⟨2, 0, 1, 0, 0⟩ :=
  get_quota_status_triggers_formula 1 tenant_a 2 0 1 0 0 _
    (by decide) (by decide) (by decide) rfl

/-- Claim C3: every field of the `available` record produced by
    `get_quota_status` is non-negative, for all tenants and all usage
    counts, including usage exceeding quota. -/
theorem get_quota_status_available_nonneg (tenant_id : Nat) (tenant : Tenant)
    (m n t r s : Int) (status : ResourceQuotaStatus)
    (hok : get_quota_status tenant_id (.ok tenant) m n t r s = .ok status) :
    0 ≤ status.available.monitors ∧
    0 ≤ status.available.networks ∧
    0 ≤ status.available.triggers ∧
    0 ≤ status.available.rpc_requests_per_minute ∧
    0 ≤ status.available.storage_mb := by
  simp only [get_quota_status] at hok
  cases hok
  exact ⟨le_max_right _ _, le_max_right _ _, le_max_right _ _,
    le_max_right _ _, le_max_right _ _⟩

/-- Witness for C3 at a concrete input where every usage count exceeds
    its quota: all five available fields clamp to 0. -/
theorem get_quota_status_available_nonneg_witness :
    0 ≤ (ResourceQuotaStatus.mk 1
        ⟨10, 5, 3, 1000, 1000⟩ ⟨20, 9, 99, 2000, 4000⟩
        ⟨0, 0, 0, 0, 0⟩).available.monitors ∧
    0 ≤ (ResourceQuotaStatus.mk 1
        ⟨10, 5, 3, 1000, 1000⟩ ⟨20, 9, 99, 2000, 4000⟩
        ⟨0, 0, 0, 0, 0⟩).available.networks ∧
    0 ≤ (ResourceQuotaStatus.mk 1
        ⟨10, 5, 3, 1000, 1000⟩ ⟨20, 9, 99, 2000, 4000⟩
        ⟨0, 0, 0, 0, 0⟩).available.triggers ∧
    0 ≤ (ResourceQuotaStatus.mk 1
        ⟨10, 5, 3, 1000, 1000⟩ ⟨20, 9, 99, 2000, 4000⟩
        ⟨0, 0, 0, 0, 0⟩).available.rpc_requests_per_minute ∧
    0 ≤ (ResourceQuotaStatus.mk 1
        ⟨10, 5, 3, 1000, 1000⟩ ⟨20, 9, 99, 2000, 4000⟩
        ⟨0, 0, 0, 0, 0⟩).available.storage_mb :=
  get_quota_status_available_nonneg 1 tenant_a 20 9 99 2000 4000 _ rfl

/-- Claim C4: when the first API-key record whose hash verifies is past
    its expiry timestamp, `authenticate_api_key` rejects with
    `UNAUTHORIZED`, and the outcome is the same `UNAUTHORIZED` as the
    no-matching-key case (empty record set). -/
theorem authenticate_api_key_expired_unauthorized
    (key : String) (records : List ApiKeyRecord)
    (verify_password : String → String → Bool) (now : Int)
    (update_last_used : Except Unit Unit) (fetch_tenant : Except Unit Tenant)
    (valid_key : ApiKeyRecord) (t : Int)
    (hfind : records.find? (fun r => verify_password key r.key_hash)
      = some valid_key)
    (hexp : valid_key.expires_at = some t) (hlt : t < now) :
    authenticate_api_key (some key) (.ok records) verify_password now
        update_last_used fetch_tenant = .error .unauthorized ∧
    authenticate_api_key (some key) (.ok []) verify_password now
        update_last_used fetch_tenant = .error .unauthorized := by
  constructor
  · simp [authenticate_api_key, hfind, is_expired, hexp, hlt]
  · simp [authenticate_api_key]

/-- Witness for C4: a key expired 1 second before `now`, whose hash
    verifies, is rejected just like an unknown key. -/
theorem authenticate_api_key_expired_unauthorized_witness :
    authenticate_api_key (some "sek")
        (.ok [{ id := 7, tenant_id := 1, key_hash := "h7",
                expires_at := some 99 }])
        (fun key hash => key == "sek" && hash == "h7") 100
        (.ok ()) (.ok tenant_a) = .error .unauthorized ∧
    authenticate_api_key (some "sek") (.ok [])
        (fun key hash => key == "sek" && hash == "h7") 100
        (.ok ()) (.ok tenant_a) = .error .unauthorized :=
  authenticate_api_key_expired_unauthorized "sek" _ _ 100 (.ok ())
    (.ok tenant_a)
    { id := 7, tenant_id := 1, key_hash := "h7", expires_at := some 99 }
    99 (by decide) rfl (by decide)

/-- Claim C5: a verified bearer token whose user has no membership row in
    the resolved tenant yields `FORBIDDEN` from `authenticate_jwt` — not
    `UNAUTHORIZED`, not `NOT_FOUND`. -/
theorem authenticate_jwt_no_membership_forbidden
    (claims : Claims) (tenant : Tenant)
    (memberships : List (Tenant × TenantRole))
    (hnone : ∀ p ∈ memberships, p.1.id ≠ tenant.id) :
    authenticate_jwt (.ok claims) (.ok tenant) (.ok memberships)
      = .error .forbidden := by
  have hfind : memberships.find? (fun p => p.1.id == tenant.id) = none := by
    rw [List.find?_eq_none]
    intro x hx
    simpa using hnone x hx
  simp [authenticate_jwt, hfind]

/-- Witness for C5: a user who is a member only of tenant 2 asking for
    tenant 1 receives `FORBIDDEN`. -/
theorem authenticate_jwt_no_membership_forbidden_witness :
    authenticate_jwt (.ok { sub := 42, email := "u at example" })
        (.ok tenant_a)
        (.ok [({ tenant_a with id := 2, slug := "other" },
          TenantRole.owner)])
      = .error .forbidden :=
  authenticate_jwt_no_membership_forbidden _ _ _ (by decide)

/-- Claim C6 (failing input): when the hash matches, the key is not
    expired, and the last-used timestamp `UPDATE` fails,
    `authenticate_api_key` fails the whole request with
    `INTERNAL_SERVER_ERROR` instead of succeeding — the update is on the
    critical path, contradicting the spec's best-effort contract. -/
theorem authenticate_api_key_update_failure_fails_request :
    authenticate_api_key (some "sek")
        (.ok [{ id := 7, tenant_id := 1, key_hash := "h7",
                expires_at := none }])
        (fun key hash => key == "sek" && hash == "h7") 100
        (.error ()) (.ok tenant_a)
      = .error .internalServerError := rfl

/-- Claim C7 (counterexample): with limit 2 and burst 3, starting from no
    entry and staying inside one 60-second window, the fourth request is
    NOT rejected with `TOO_MANY_REQUESTS` — the burst branch admits
    without incrementing, so the counter never reaches the burst
    ceiling. -/
theorem rate_limit_fourth_request_not_rejected :
    rate_limit_middleware limit2_burst3_ctx 0 [] = .ok [(5, ⟨1, 0⟩)] ∧
    rate_limit_middleware limit2_burst3_ctx 10 [(5, ⟨1, 0⟩)]
      = .ok [(5, ⟨2, 0⟩)] ∧
    rate_limit_middleware limit2_burst3_ctx 20 [(5, ⟨2, 0⟩)]
      = .ok [(5, ⟨2, 0⟩)] ∧
    rate_limit_middleware limit2_burst3_ctx 30 [(5, ⟨2, 0⟩)]
      ≠ .error .tooManyRequests := by
  refine ⟨rfl, rfl, rfl, fun hcontra => ?_⟩
  rw [show rate_limit_middleware limit2_burst3_ctx 30 [(5, ⟨2, 0⟩)]
      = .ok [(5, ⟨2, 0⟩)] from rfl] at hcontra
  exact Except.noConfusion hcontra

/-- Claim C7 (amended): with limit 2 and burst 3 inside one window, the
    first two requests are admitted and increment the counter, the third
    is admitted via the burst allowance without incrementing, the fourth
    is likewise admitted via the burst allowance (the counter stays at 2,
    below burst 3, so no request in the window is ever rejected), and
    after more than 60 seconds the counter resets and a new request is
    admitted. -/
theorem rate_limit_limit2_burst3_trace :
    rate_limit_middleware limit2_burst3_ctx 0 [] = .ok [(5, ⟨1, 0⟩)] ∧
    rate_limit_middleware limit2_burst3_ctx 10 [(5, ⟨1, 0⟩)]
      = .ok [(5, ⟨2, 0⟩)] ∧
    rate_limit_middleware limit2_burst3_ctx 20 [(5, ⟨2, 0⟩)]
      = .ok [(5, ⟨2, 0⟩)] ∧
    rate_limit_middleware limit2_burst3_ctx 30 [(5, ⟨2, 0⟩)]
      = .ok [(5, ⟨2, 0⟩)] ∧
    rate_limit_middleware limit2_burst3_ctx 61 [(5, ⟨2, 0⟩)]
      = .ok [(5, ⟨1, 61⟩)] :=
  ⟨rfl, rfl, rfl, rfl, rfl⟩

/-- Claim C8: with no tenant context bound, `rate_limit_middleware` is a
    no-op pass-through — the request is admitted with no error and the
    shared tenant→counter map is returned unchanged. -/
theorem rate_limit_no_context_passthrough (now : Nat)
    (rate_limits : List (Nat × RateLimitEntry)) :
    rate_limit_middleware none now rate_limits = .ok rate_limits := rfl

/-- Claim C9: every `TenantContext` successfully produced by credential
    resolution — by `authenticate_jwt` or by `authenticate_api_key` —
    carries exactly one principal: a user and no API-key id, or an
    API-key id and no user. -/
theorem credential_resolution_exactly_one_principal
    (verify_jwt : Except Unit Claims) (get_by_slug : Except Unit Tenant)
    (get_user_tenants : Except Unit (List (Tenant × TenantRole)))
    (stripped : Option String)
    (key_records : Except Unit (List ApiKeyRecord))
    (verify_password : String → String → Bool) (now : Int)
    (update_last_used : Except Unit Unit) (fetch_tenant : Except Unit Tenant)
    (ctx : TenantContext)
    (h : authenticate_jwt verify_jwt get_by_slug get_user_tenants
        = .ok ctx ∨
      authenticate_api_key stripped key_records verify_password now
        update_last_used fetch_tenant = .ok ctx) :
    has_exactly_one_principal ctx := by
  rcases h with h | h
  · cases verify_jwt with
    | error e => simp [authenticate_jwt] at h
    | ok claims =>
      cases get_by_slug with
      | error e => simp [authenticate_jwt] at h
      | ok tenant =>
        cases get_user_tenants with
        | error e => simp [authenticate_jwt] at h
        | ok memberships =>
          cases hfind : memberships.find? (fun p => p.1.id == tenant.id) with
          | none => simp [authenticate_jwt, hfind] at h
          | some membership =>
            simp [authenticate_jwt, hfind] at h
            subst h
            left
            simp [TenantContext.with_user]
  · cases stripped with
    | none => simp [authenticate_api_key] at h
    | some key_without =>
      cases key_records with
      | error e => simp [authenticate_api_key] at h
      | ok records =>
        cases hfind : records.find?
            (fun r => verify_password key_without r.key_hash) with
        | none => simp [authenticate_api_key, hfind] at h
        | some valid_key =>
          by_cases hexp : is_expired valid_key.expires_at now
          · simp [authenticate_api_key, hfind, hexp] at h
          · cases update_last_used with
            | error e => simp [authenticate_api_key, hfind, hexp] at h
            | ok u =>
              cases fetch_tenant with
              | error e => simp [authenticate_api_key, hfind, hexp] at h
              | ok tenant =>
                simp [authenticate_api_key, hfind, hexp] at h
                subst h
                right
                simp [TenantContext.with_api_key]

/-- Witness for C9: a successful JWT resolution produces a context with a
    user principal and no API-key id. -/
theorem credential_resolution_exactly_one_principal_witness :
    has_exactly_one_principal
      (TenantContext.with_user 1
        { id := 42, email := "u at example", role := TenantRole.member }) :=
  credential_resolution_exactly_one_principal
    (.ok { sub := 42, email := "u at example" }) (.ok tenant_a)
    (.ok [(tenant_a, TenantRole.member)]) none (.ok [])
    (fun _ _ => false) 0 (.ok ()) (.ok tenant_a) _ (Or.inl rfl)

/-- Claim C10: a `TenantContext` whose principal is an API key (no user
    attached) can write but can never manage:
    `can_manage` is `false` and `can_write` is `true`. -/
theorem api_key_principal_can_write_not_manage (ctx : TenantContext)
    (h : ctx.user = none) :
    ctx.can_manage = false ∧ ctx.can_write = true := by
  simp [TenantContext.can_manage, TenantContext.can_write, h]

/-- Witness for C10 on a concrete API-key context. -/
theorem api_key_principal_can_write_not_manage_witness :
    (TenantContext.with_api_key 1 2).can_manage = false ∧
    (TenantContext.with_api_key 1 2).can_write = true :=
  api_key_principal_can_write_not_manage (TenantContext.with_api_key 1 2) rfl

end StellarMonitor
